import Mathlib

/-! Ghostline Browser — verification of spec claims.

Shallow embedding of the parts of the Ghostline browser (Python) that the
frozen claims are about: the entropy budget, device randomizer and uniformity
profiles (`ghostline/privacy/entropy.py`, `ghostline/privacy/uniformity.py`),
the extension platform (`ghostline/extensions/platform.py`), the permission
manager (`ghostline/permissions/manager.py`), the container UX
(`ghostline/ui/containers.py`) and the privacy dashboard
(`ghostline/ui/dashboard.py`).

Python dicts are embedded as insertion-ordered association lists; Python sets
as `Finset`; mutation as explicit state passing.  Where the source derives
pseudo-random values from a SHA-256 digest of a keyed string (a pure function
of its input string), the derivation is kept abstract as a function field
`gen` of the embedding: every claim that touches it depends only on the
derivation being a pure function of the key material, which the field makes
explicit.
-/

namespace Ghostline

/-- Lookup in an insertion-ordered association list (embeds `dict.get`). -/
def lookupA {α β : Type} [DecidableEq α] : List (α × β) → α → Option β
  | [], _ => none
  | (k, v) :: rest, key => if k = key then some v else lookupA rest key

/-- Update-or-append in an insertion-ordered association list (embeds
`dict.__setitem__`: an existing key keeps its position, a new key is
appended). -/
def setA {α β : Type} [DecidableEq α] : List (α × β) → α → β → List (α × β)
  | [], key, v => [(key, v)]
  | (k, x) :: rest, key, v =>
      if k = key then (key, v) :: rest else (k, x) :: setA rest key v

/-- Sum of the values of an association list (embeds `sum(d.values())`). -/
def sumValues {α : Type} : List (α × Int) → Int
  | [] => 0
  | (_, v) :: rest => v + sumValues rest

/-! ## `ghostline/privacy/entropy.py` — `EntropyBudget` -/

/-- State of `EntropyBudget`: the bit limit, the per-API usage dict and the
two append-only event logs. -/
structure EntropyBudget where
  limit_bits : Int := 16
  usage : List (String × Int) := []
  devtools_events : List String := []
  telemetry_events : List String := []
deriving Repr, DecidableEq

/-- The devtools trace event emitted by every `consume` call. -/
def consumeEvent (api : String) (bits total : Int) : String :=
  "consume:" ++ api ++ ":" ++ toString bits ++ "bits:total=" ++ toString total

/-- The message logged when the budget is exceeded. -/
def exceededEvent (api : String) (total limit : Int) : String :=
  "budget-exceeded:" ++ api ++ ":" ++ toString total ++ "/" ++ toString limit

/-- Embeds `EntropyBudget.consume`: adds `bits` to the per-API tally, logs a trace
event, and on exceeding the limit also logs a budget-exceeded message to the
devtools and telemetry logs and returns `false`. -/
def EntropyBudget.consume (b : EntropyBudget) (api : String) (bits : Int) :
    Bool × EntropyBudget :=
  let current := (lookupA b.usage api).getD 0
  let usage' := setA b.usage api (current + bits)
  let total := sumValues usage'
  let dev := b.devtools_events ++ [consumeEvent api bits total]
  if total > b.limit_bits then
    let message := exceededEvent api total b.limit_bits
    (false,
      { b with
          usage := usage'
          devtools_events := dev ++ [message]
          telemetry_events := b.telemetry_events ++ [message] })
  else
    (true, { b with usage := usage', devtools_events := dev })

/-- Embeds `EntropyBudget.reset`: clears the usage map and both event logs. -/
def EntropyBudget.reset (b : EntropyBudget) : EntropyBudget :=
  { b with usage := [], devtools_events := [], telemetry_events := [] }

/-- Embeds `EntropyBudget.total_bits`: sum of the per-API usage values. -/
def EntropyBudget.total_bits (b : EntropyBudget) : Int :=
  sumValues b.usage

/-! ## `ghostline/privacy/entropy.py` — `DeviceRandomizer` -/

/-- The device-class attribute record produced by `DeviceRandomizer.randomize`
(gpu string, memory in GB, platform string). -/
structure DeviceAttrs where
  gpu : String
  memory_gb : Nat
  platform : String
deriving Repr, DecidableEq

/-- State of `DeviceRandomizer`.  `gen` embeds the derivation of the attribute
record from the key material `seed ++ ":" ++ bucket` — in the source a SHA-256
digest seeds a PRNG, which is a pure function of that material. -/
structure DeviceRandomizer where
  seed : String := "ghostline-device"
  stability_window : Int := 3
  randomized : List (Int × DeviceAttrs) := []
  gen : String → Int → DeviceAttrs

/-- Embeds `DeviceRandomizer._bucket`: floor division of the window id by the
stability window (Python `//`). -/
def DeviceRandomizer.bucket (r : DeviceRandomizer) (window_id : Int) : Int :=
  Int.fdiv window_id r.stability_window

/-- Embeds `DeviceRandomizer.randomize`: returns the cached attributes for the
window's bucket, deriving and caching fresh ones on a miss. -/
def DeviceRandomizer.randomize (r : DeviceRandomizer) (window_id : Int) :
    DeviceAttrs × DeviceRandomizer :=
  let bucket := r.bucket window_id
  match lookupA r.randomized bucket with
  | some v => (v, r)
  | none =>
      let v := r.gen r.seed bucket
      (v, { r with randomized := setA r.randomized bucket v })

/-! ## `ghostline/privacy/uniformity.py` -/

/-- Embeds `HIGH_ENTROPY_APIS`. -/
def HIGH_ENTROPY_APIS : List String := ["webgl", "webgpu", "audiocontext", "gamepad"]

/-- Embeds `FontPack`: locale-aware font lists with per-site overrides. -/
structure FontPack where
  name : String
  locales : List (String × List String)
  site_overrides : List (String × List String) := []
deriving Repr, DecidableEq

/-- Embeds `FontPack.fonts_for`: a non-empty site with an override wins, otherwise the
locale's fonts with the `"default"` locale as fallback (`dict.get` chain). -/
def FontPack.fonts_for (fp : FontPack) (locale : String) (site : Option String) :
    List String :=
  match site with
  | some s =>
      if s ≠ "" then
        match lookupA fp.site_overrides s with
        | some fonts => fonts
        | none => ((lookupA fp.locales locale).getD ((lookupA fp.locales "default").getD []))
      else ((lookupA fp.locales locale).getD ((lookupA fp.locales "default").getD []))
  | none => ((lookupA fp.locales locale).getD ((lookupA fp.locales "default").getD []))

/-- Embeds `FontPack.override_for_site`. -/
def FontPack.override_for_site (fp : FontPack) (site : String) (fonts : List String) :
    FontPack :=
  { fp with site_overrides := setA fp.site_overrides site fonts }

/-- Embeds `UniformityProfile`: capability masks plus a font pack. -/
structure UniformityProfile where
  name : String
  capability_mask : List (String × Bool)
  font_pack : FontPack
  strict_mode : Bool := false
deriving Repr, DecidableEq

/-- Embeds `UniformityProfile.gate_api`. -/
def UniformityProfile.gate_api (p : UniformityProfile) (api : String) : Bool :=
  if p.strict_mode ∧ api ∈ HIGH_ENTROPY_APIS then false
  else (lookupA p.capability_mask api).getD true

/-- The `base_fonts` font pack built once by `_build_presets` and shared (the
same Python object) by the `strict`, `balanced` and `compat` presets. -/
def baseFonts : FontPack :=
  { name := "baseline"
    locales :=
      [("default", ["Inter", "Noto Sans", "DejaVu Sans"]),
       ("en-US", ["Inter", "Roboto", "Noto Sans"]),
       ("fr-FR", ["Inter", "Noto Sans", "Liberation Sans"])] }

def strictMask : List (String × Bool) :=
  HIGH_ENTROPY_APIS.map (fun api => (api, false))

def balancedMask : List (String × Bool) :=
  [("webgl", true), ("webgpu", false), ("audiocontext", true), ("gamepad", true)]

def compatMask : List (String × Bool) :=
  HIGH_ENTROPY_APIS.map (fun api => (api, true))

/-- State of `UniformityManager`.  The three built-in presets all hold the one
shared `base_fonts` object, so the embedding stores that shared font pack once;
the preset profiles are reconstructed from it by `presetProfile`. -/
structure UniformityManager where
  base_font_pack : FontPack := baseFonts
  container_profiles : List (String × UniformityProfile) := []
deriving Repr, DecidableEq

/-- The preset table built by `_build_presets`, with every preset's
`font_pack` being the manager's shared base font pack. -/
def UniformityManager.presetProfile (m : UniformityManager) :
    String → Option UniformityProfile
  | "strict" => some
      { name := "strict", capability_mask := strictMask
        font_pack := m.base_font_pack, strict_mode := true }
  | "balanced" => some
      { name := "balanced", capability_mask := balancedMask
        font_pack := m.base_font_pack, strict_mode := false }
  | "compat" => some
      { name := "compat", capability_mask := compatMask
        font_pack := m.base_font_pack, strict_mode := false }
  | _ => none

/-- Embeds `dict.setdefault`: insert at the end only when the key is absent. -/
def setdefaultA {α β : Type} [DecidableEq α] (l : List (α × β)) (k : α) (v : β) :
    List (α × β) :=
  if (lookupA l k).isSome then l else l ++ [(k, v)]

/-- Embeds `UniformityManager.apply_preset`: clone the preset profile (fresh dicts for
the capability mask, locales and site overrides), default the locale entry,
and store the clone for the container.  `none` embeds the `ValueError` raised
on an unknown preset (the state is unchanged in that case). -/
def UniformityManager.apply_preset (m : UniformityManager) (container preset : String)
    (locale : String := "default") : Option (UniformityProfile × UniformityManager) :=
  match m.presetProfile preset with
  | none => none
  | some profile =>
      let fp := profile.font_pack
      let fp := { fp with
        locales := setdefaultA fp.locales locale ((lookupA fp.locales "default").getD []) }
      let cloned := { profile with font_pack := fp }
      some (cloned, { m with container_profiles := setA m.container_profiles container cloned })

/-- Embeds `UniformityManager.profile_for`: the container's profile, falling back to
the shared `compat` preset object. -/
def UniformityManager.profile_for (m : UniformityManager) (container : String) :
    UniformityProfile :=
  match lookupA m.container_profiles container with
  | some p => p
  | none =>
      { name := "compat", capability_mask := compatMask
        font_pack := m.base_font_pack, strict_mode := false }

/-- Embeds `UniformityManager.fonts_for`. -/
def UniformityManager.fonts_for (m : UniformityManager) (container locale : String)
    (site : Option String := none) : List String :=
  (m.profile_for container).font_pack.fonts_for locale site

/-- Embeds `UniformityManager.gate_api`. -/
def UniformityManager.gate_api (m : UniformityManager) (container api : String) : Bool :=
  (m.profile_for container).gate_api api

/-- Embeds `UniformityManager.set_site_override`: mutates the object returned by
`profile_for` in place.  For a container with a stored profile that is the
container's own clone; for a container without one it is the shared `compat`
preset, i.e. the shared base font pack. -/
def UniformityManager.set_site_override (m : UniformityManager)
    (container site : String) (fonts : List String) : UniformityManager :=
  match lookupA m.container_profiles container with
  | some p =>
      let p' := { p with font_pack := p.font_pack.override_for_site site fonts }
      { m with container_profiles := setA m.container_profiles container p' }
  | none =>
      { m with base_font_pack := m.base_font_pack.override_for_site site fonts }

/-! ## `ghostline/extensions/platform.py` -/

/-- Embeds `SENSITIVE_APIS`. -/
def SENSITIVE_APIS : List String :=
  ["nativeMessaging", "clipboard", "fileSystem", "processes"]

/-- Embeds `ExtensionManifest`. -/
structure ExtensionManifest where
  name : String
  version : String
  permissions : List String
  capabilities : List (String × Bool) := []
  reference_hash : Option String := none
deriving Repr, DecidableEq

/-- Embeds `ExtensionPackage`. -/
structure ExtensionPackage where
  identifier : String
  manifest : ExtensionManifest
  signature : String
  build_hash : String
  provenance : String
  review_notes : List String := []
deriving Repr, DecidableEq

/-- Embeds `ExtensionPackage.signed`: `bool(self.signature)` — a non-empty string. -/
def ExtensionPackage.signed (p : ExtensionPackage) : Bool :=
  p.signature ≠ ""

/-- Embeds `AnalysisFinding`. -/
structure AnalysisFinding where
  code : String
  severity : String
  detail : String
deriving Repr, DecidableEq

/-- Embeds `StaticAnalyzer.analyze`: one high finding per sensitive permission, then a
critical `invalid-manifest` finding when the name or version is empty. -/
def StaticAnalyzer.analyze (manifest : ExtensionManifest) : List AnalysisFinding :=
  (manifest.permissions.filterMap fun perm =>
    if perm ∈ SENSITIVE_APIS then
      some { code := "sensitive-permission", severity := "high"
             detail := "Permission " ++ perm ++ " gated by default" }
    else none) ++
  (if manifest.name = "" ∨ manifest.version = "" then
    [{ code := "invalid-manifest", severity := "critical", detail := "Missing metadata" }]
   else [])

/-- Embeds `PermissionReview.review`: always approves, annotating every sensitive
permission with a sandboxing note. -/
def PermissionReview.review (manifest : ExtensionManifest) : Bool × List String :=
  let denied := manifest.permissions.filter (fun perm => perm ∈ SENSITIVE_APIS)
  (true, denied.map (fun perm => perm ++ " requires sandboxing"))

/-- Embeds `ReproducibleBuildVerifier.verify`: a falsy (`None` or empty) reference
hash fails; otherwise the build hash must equal it. -/
def ReproducibleBuildVerifier.verify (p : ExtensionPackage) : Bool :=
  match p.manifest.reference_hash with
  | none => false
  | some h => if h = "" then false else p.build_hash = h

/-- State of `ExtensionStore`: published packages and recorded findings. -/
structure ExtensionStore where
  extensions : List (String × ExtensionPackage) := []
  analysis_findings : List (String × List AnalysisFinding) := []
deriving Repr, DecidableEq

/-- Embeds `ExtensionStore.publish`.  The result is the store after the call, the
package after the call (its `review_notes` are mutated in place by the review
stage), and `some error` when a `ValueError` is raised — state already mutated
by earlier stages is kept, exactly as in the source. -/
def ExtensionStore.publish (s : ExtensionStore) (p : ExtensionPackage) :
    ExtensionStore × ExtensionPackage × Option String :=
  if ¬ p.signed then (s, p, some "unsigned-extension")
  else
    let findings := StaticAnalyzer.analyze p.manifest
    let s1 := { s with analysis_findings := setA s.analysis_findings p.identifier findings }
    if findings.any (fun f => f.severity = "critical") then
      (s1, p, some "static-analysis-blocked")
    else
      let (approved, notes) := PermissionReview.review p.manifest
      let p1 := { p with review_notes := p.review_notes ++ notes }
      if ¬ approved then (s1, p1, some "permission-review-denied")
      else if ¬ ReproducibleBuildVerifier.verify p1 then
        (s1, p1, some "non-reproducible-build")
      else
        ({ s1 with extensions := setA s1.extensions p1.identifier p1 }, p1, none)

/-- Embeds `ManifestGatekeeper.gate`: sensitive permissions get `False`, others
`True`, in a dict keyed by the permission. -/
def ManifestGatekeeper.gate (manifest : ExtensionManifest) : List (String × Bool) :=
  manifest.permissions.foldl
    (fun gated perm => setA gated perm (decide (perm ∉ SENSITIVE_APIS))) []

/-- Embeds `ExtensionPolicy`: per-container allowlist, denylist and gating cache. -/
structure ExtensionPolicy where
  allowlist : Finset String := ∅
  denylist : Finset String := ∅
  gated_permissions : List (String × List (String × Bool)) := []
deriving DecidableEq

/-- Embeds `ExtensionPolicy.clone` deep-copies the sets and dicts; in the functional
embedding that copy is the value itself. -/
def ExtensionPolicy.clone (p : ExtensionPolicy) : ExtensionPolicy := p

/-- State of `ExtensionManager`. -/
structure ExtensionManager where
  policies : List (String × ExtensionPolicy) := []
  active_extensions : List (String × List String) := []
deriving DecidableEq

/-- The policy `install` and `is_allowed` read for a container
(`policies.setdefault`/`get` with a fresh empty `ExtensionPolicy`). -/
def ExtensionManager.policyFor (m : ExtensionManager) (container : String) :
    ExtensionPolicy :=
  (lookupA m.policies container).getD {}

/-- Embeds `ExtensionManager.allow_extension`: add to the allowlist and discard from
the denylist. -/
def ExtensionManager.allow_extension (m : ExtensionManager)
    (container extension_id : String) : ExtensionManager :=
  let pol := m.policyFor container
  let pol' := { pol with allowlist := insert extension_id pol.allowlist
                         denylist := pol.denylist.erase extension_id }
  { m with policies := setA m.policies container pol' }

/-- Embeds `ExtensionManager.deny_extension`: add to the denylist, discard from the
allowlist, and drop the id from the container's active list if present. -/
def ExtensionManager.deny_extension (m : ExtensionManager)
    (container extension_id : String) : ExtensionManager :=
  let pol := m.policyFor container
  let pol' := { pol with denylist := insert extension_id pol.denylist
                         allowlist := pol.allowlist.erase extension_id }
  let actives :=
    match lookupA m.active_extensions container with
    | some l => if extension_id ∈ l then setA m.active_extensions container (l.erase extension_id)
                else m.active_extensions
    | none => m.active_extensions
  { m with policies := setA m.policies container pol', active_extensions := actives }

/-- Embeds `ExtensionManager.install`: denylist check, then allowlist check, then
record the gating decision and activate the extension.  `some error` embeds
the raised `ValueError`; the `setdefault` that ran before the raise is kept. -/
def ExtensionManager.install (m : ExtensionManager) (container : String)
    (package : ExtensionPackage) : ExtensionManager × Option String :=
  let pol := m.policyFor container
  if package.identifier ∈ pol.denylist then
    ({ m with policies := setdefaultA m.policies container {} }, some "extension-denied")
  else if pol.allowlist ≠ ∅ ∧ package.identifier ∉ pol.allowlist then
    ({ m with policies := setdefaultA m.policies container {} },
     some "extension-not-allowlisted")
  else
    let gp := setA pol.gated_permissions package.identifier (ManifestGatekeeper.gate package.manifest)
    let pol' := { pol with gated_permissions := gp }
    let cur := (lookupA m.active_extensions container).getD []
    let actives' :=
      if package.identifier ∈ cur then setdefaultA m.active_extensions container []
      else setA m.active_extensions container (cur ++ [package.identifier])
    ({ m with policies := setA m.policies container pol', active_extensions := actives' },
     none)

/-- Embeds `ExtensionManager.clone_policy`: an unknown source yields a fresh empty
policy for the target (actives untouched); otherwise both the policy clone and
the active list are copied over. -/
def ExtensionManager.clone_policy (m : ExtensionManager) (source target : String) :
    ExtensionManager :=
  match lookupA m.policies source with
  | none => { m with policies := setA m.policies target {} }
  | some pol =>
      let actives := setA m.active_extensions target ((lookupA m.active_extensions source).getD [])
      { m with policies := setA m.policies target pol.clone, active_extensions := actives }

/-- Embeds `ExtensionManager.is_allowed`. -/
def ExtensionManager.is_allowed (m : ExtensionManager)
    (container extension_id : String) : Bool :=
  let pol := m.policyFor container
  if pol.allowlist ≠ ∅ ∧ extension_id ∉ pol.allowlist then false
  else decide (extension_id ∉ pol.denylist)

/-- Embeds `ExtensionManager.installed_for`. -/
def ExtensionManager.installed_for (m : ExtensionManager) (container : String) :
    List String :=
  (lookupA m.active_extensions container).getD []

/-! ## `ghostline/permissions/manager.py`

Only the methods the claims exercise are embedded: `request_permission`,
`close_tab` and `active_permissions`.  `datetime.utcnow()` timestamps are
embedded as `Nat` instants passed explicitly; the time-based `use_permission`
and `revoke_unused` play no part in the claims settled here. -/

/-- Embeds `ONE_TIME_PERMISSIONS`. -/
def ONE_TIME_PERMISSIONS : List String := ["camera", "microphone", "geolocation"]

/-- Embeds `PermissionPrompt`. -/
structure PermissionPrompt where
  scope : String
  duration : String
  data_access : String
  purpose : String
deriving Repr, DecidableEq

/-- Embeds `PermissionGrant`. -/
structure PermissionGrant where
  permission : String
  origin : String
  prompt : PermissionPrompt
  granted : Bool
  one_time : Bool := false
  active : Bool := true
  last_used : Nat := 0
deriving Repr, DecidableEq

/-- An exposure-log dict: either a usage entry with a timestamp or a
revocation entry with a reason. -/
inductive ExposureEntry
  | used (origin permission : String) (timestamp : Nat)
  | revoked (origin permission reason : String)
deriving Repr, DecidableEq

/-- The deny set of `PermissionPolicyEngine.rules` for a compliance mode; an
unknown mode falls back to `standard`. -/
def policyDenySet : String → List String
  | "strict" => ["nativeMessaging", "fileSystem"]
  | "compliance" => ["clipboard", "biometrics"]
  | _ => []

/-- An audit event appended by `PermissionPolicyEngine.allow` (the `allowed`
field holds Python's `str(bool)`). -/
structure AuditEvent where
  origin : String
  permission : String
  mode : String
  allowed : String
deriving Repr, DecidableEq

/-- State of `PermissionPolicyEngine`. -/
structure PermissionPolicyEngine where
  compliance_mode : String := "standard"
  audit_events : List AuditEvent := []
deriving Repr, DecidableEq

/-- Embeds `PermissionPolicyEngine.allow`. -/
def PermissionPolicyEngine.allow (e : PermissionPolicyEngine)
    (origin permission : String) : Bool × PermissionPolicyEngine :=
  let allowed := permission ∉ policyDenySet e.compliance_mode
  let ev : AuditEvent :=
    { origin := origin, permission := permission, mode := e.compliance_mode
      allowed := if allowed then "True" else "False" }
  (allowed, { e with audit_events := e.audit_events ++ [ev] })

/-- State of `PermissionManager` (idle timeout in seconds). -/
structure PermissionManager where
  policy_engine : PermissionPolicyEngine := {}
  idle_timeout : Nat := 15 * 60
  grants : List (String × List (String × PermissionGrant)) := []
  exposure_log : List ExposureEntry := []
deriving Repr, DecidableEq

/-- The grant stored for `(origin, permission)`. -/
def PermissionManager.grantFor (m : PermissionManager) (origin permission : String) :
    Option PermissionGrant :=
  lookupA ((lookupA m.grants origin).getD []) permission

/-- Embeds `PermissionManager.request_permission`: consults the policy engine and
stores a grant whose `one_time` flag is set by the explicit argument, by the
permission being in `ONE_TIME_PERMISSIONS`, or by a `"once"` prompt duration,
and whose `active` flag equals the policy decision. -/
def PermissionManager.request_permission (m : PermissionManager)
    (origin permission : String) (prompt : PermissionPrompt)
    (one_time : Bool := false) (now : Nat := 0) :
    PermissionGrant × PermissionManager :=
  let (allowed, engine') := m.policy_engine.allow origin permission
  let grant : PermissionGrant :=
    { permission := permission, origin := origin, prompt := prompt
      granted := allowed
      one_time := one_time || permission ∈ ONE_TIME_PERMISSIONS || prompt.duration = "once"
      active := allowed, last_used := now }
  let perms := setA ((lookupA m.grants origin).getD []) permission grant
  (grant, { m with policy_engine := engine', grants := setA m.grants origin perms })

/-- Embeds `PermissionManager.close_tab`: walks the origin's grants in insertion
order, deactivating (and logging `"tab-closed"` for) every grant whose
`one_time` flag is set AND whose permission is in `ONE_TIME_PERMISSIONS` —
whether or not the grant was still active. -/
def PermissionManager.close_tab (m : PermissionManager) (origin : String) :
    PermissionManager :=
  match lookupA m.grants origin with
  | none => m
  | some perms =>
      let hits := fun (pg : String × PermissionGrant) =>
        pg.2.one_time ∧ pg.1 ∈ ONE_TIME_PERMISSIONS
      let perms' := perms.map fun pg =>
        if hits pg then (pg.1, { pg.2 with active := false }) else pg
      let logged := perms.filterMap fun pg =>
        if hits pg then some (ExposureEntry.revoked origin pg.1 "tab-closed") else none
      { m with grants := setA m.grants origin perms'
               exposure_log := m.exposure_log ++ logged }

/-- Embeds `PermissionManager.active_permissions`. -/
def PermissionManager.active_permissions (m : PermissionManager) (origin : String) :
    List String :=
  (((lookupA m.grants origin).getD []).filter (fun pg => pg.2.active)).map (fun pg => pg.1)

/-! ## `ghostline/ui/containers.py` -/

/-- Embeds `PALETTE`. -/
def PALETTE : List String := ["#4caf50", "#2196f3", "#ff9800", "#9c27b0", "#607d8b"]

/-- Embeds `ContainerPolicyBundle`. -/
structure ContainerPolicyBundle where
  name : String
  uniformity_preset : String
  tor_required : Bool
  proxy_mode : String
  notes : List String := []
deriving Repr, DecidableEq

/-- Embeds `ContainerBadge`. -/
structure ContainerBadge where
  name : String
  color : String
  policy : ContainerPolicyBundle
  isolation_badge : String
deriving Repr, DecidableEq

/-- Embeds `ContainerUX._build_templates`. -/
def buildTemplates : List (String × ContainerPolicyBundle) :=
  [("balanced",
    { name := "balanced", uniformity_preset := "balanced", tor_required := false
      proxy_mode := "standard", notes := ["Fingerprint smoothing", "Proxy optional"] }),
   ("research",
    { name := "research", uniformity_preset := "strict", tor_required := true
      proxy_mode := "tor", notes := ["Sensitive lookups isolated", "Strict capability mask"] }),
   ("strict",
    { name := "strict", uniformity_preset := "strict", tor_required := false
      proxy_mode := "hardened", notes := ["Maximum uniformity", "WebGPU blocked"] }),
   ("shopping",
    { name := "shopping", uniformity_preset := "balanced", tor_required := false
      proxy_mode := "standard", notes := ["Payment friendly", "Balanced entropy budget"] }),
   ("banking",
    { name := "banking", uniformity_preset := "strict", tor_required := false
      proxy_mode := "hardened", notes := ["Certificates pinned", "Audio/WebGPU blocked"] })]

/-- State of `ContainerUX`. -/
structure ContainerUX where
  templates : List (String × ContainerPolicyBundle) := buildTemplates
  badges : List (String × ContainerBadge) := []
  palette_index : Nat := 0
deriving Repr, DecidableEq

/-- Embeds `ContainerUX.register_container`: unconditionally builds a badge with the
next palette color and stores it; `none` embeds the `ValueError` on an unknown
template (state unchanged). -/
def ContainerUX.register_container (u : ContainerUX) (name template : String) :
    Option (ContainerBadge × ContainerUX) :=
  match lookupA u.templates template with
  | none => none
  | some policy =>
      let color := PALETTE.getD (u.palette_index % PALETTE.length) ""
      let badge : ContainerBadge :=
        { name := name, color := color, policy := policy
          isolation_badge := "isolated:" ++ policy.uniformity_preset }
      some (badge, { u with badges := setA u.badges name badge
                            palette_index := u.palette_index + 1 })

/-- Embeds `ContainerUX.badge_for`. -/
def ContainerUX.badge_for (u : ContainerUX) (name : String) : Option ContainerBadge :=
  lookupA u.badges name

/-! ## `ghostline/networking/tor.py` — the slice `ensure_container` drives -/

/-- Embeds `TorCircuit`. -/
structure TorCircuit where
  container : String
  guard_node : String
  healthy : Bool := true
  fingerprint_errors : Nat := 0
deriving Repr, DecidableEq

/-- The guard-node cycle `itertools.cycle(["guard-a", "guard-b", "guard-c"])`,
embedded as the list plus a cursor. -/
def GUARD_NODES : List String := ["guard-a", "guard-b", "guard-c"]

/-- State of `TorController` (the slice used by the dashboard). -/
structure TorController where
  enabled : Bool := false
  progress_index : Nat := 0
  circuits : List (String × TorCircuit) := []
  guard_index : Nat := 0
  active_transport : Option String := none
deriving Repr, DecidableEq

/-- Embeds `TorController._select_transport`. -/
def selectTransport (preference : Option String) : Option String :=
  match preference with
  | some p => if p ≠ "" ∧ p ∈ ["obfs4", "snowflake"] then some p else some "obfs4"
  | none => some "obfs4"

/-- Embeds `TorController.enable`. -/
def TorController.enable (t : TorController)
    (transport_preference : Option String := none) : TorController :=
  { t with enabled := true
           progress_index := min (t.progress_index + 1) 3
           active_transport := selectTransport transport_preference }

/-- Embeds `TorController.isolate_stream`: create a circuit with the next guard node
on first use of a container. -/
def TorController.isolate_stream (t : TorController) (container : String) :
    TorCircuit × TorController :=
  match lookupA t.circuits container with
  | some c => (c, t)
  | none =>
      let c : TorCircuit :=
        { container := container
          guard_node := GUARD_NODES.getD (t.guard_index % GUARD_NODES.length) "" }
      (c, { t with circuits := setA t.circuits container c
                   guard_index := t.guard_index + 1 })

/-! ## `ghostline/extensions/platform.py` — sandbox monitor and platform -/

/-- Embeds `ResourceBudget`. -/
structure ResourceBudget where
  cpu_ms : Int := 50
  memory_mb : Int := 128
  network_kb : Int := 512
deriving Repr, DecidableEq

/-- State of `ExtensionSandboxMonitor` (the slice the dashboard drives). -/
structure ExtensionSandboxMonitor where
  budgets : List (String × ResourceBudget) := []
  usage : List (String × ResourceBudget) := []
  alerts : List String := []
deriving Repr, DecidableEq

/-- Embeds `ExtensionSandboxMonitor.set_budget`. -/
def ExtensionSandboxMonitor.set_budget (s : ExtensionSandboxMonitor)
    (extension_id : String) (budget : ResourceBudget) : ExtensionSandboxMonitor :=
  { s with budgets := setA s.budgets extension_id budget
           usage := setdefaultA s.usage extension_id { cpu_ms := 0, memory_mb := 0, network_kb := 0 } }

/-- Embeds `ExtensionStore.get`. -/
def ExtensionStore.get (s : ExtensionStore) (identifier : String) :
    Option ExtensionPackage :=
  lookupA s.extensions identifier

/-- State of `ExtensionPlatform` (`gatekeeper` is stateless). -/
structure ExtensionPlatform where
  store : ExtensionStore := {}
  manager : ExtensionManager := {}
  sandbox : ExtensionSandboxMonitor := {}
deriving DecidableEq

/-- Embeds `ExtensionPlatform.publish` (delegates to the store; the mutated package
and the raised error are surfaced alongside the new platform state). -/
def ExtensionPlatform.publish (pl : ExtensionPlatform) (package : ExtensionPackage) :
    ExtensionPlatform × ExtensionPackage × Option String :=
  let (store', package', err) := pl.store.publish package
  ({ pl with store := store' }, package', err)

/-- Embeds `ExtensionPlatform.enable_for_container`: look the package up in the
store, install it for the container, then give it a default sandbox budget;
`some error` embeds a raised `ValueError` (short-circuiting later steps). -/
def ExtensionPlatform.enable_for_container (pl : ExtensionPlatform)
    (container extension_id : String) : ExtensionPlatform × Option String :=
  match pl.store.get extension_id with
  | none => (pl, some "unknown-extension")
  | some package =>
      let (mgr', err) := pl.manager.install container package
      match err with
      | some e => ({ pl with manager := mgr' }, some e)
      | none =>
          ({ pl with manager := mgr'
                     sandbox := pl.sandbox.set_budget extension_id {} }, none)

/-- Embeds `ExtensionPlatform.clone_container_policy`. -/
def ExtensionPlatform.clone_container_policy (pl : ExtensionPlatform)
    (source target : String) : ExtensionPlatform :=
  { pl with manager := pl.manager.clone_policy source target }

/-- Embeds `ExtensionPlatform.container_extensions`. -/
def ExtensionPlatform.container_extensions (pl : ExtensionPlatform)
    (container : String) : List String :=
  pl.manager.installed_for container

/-! ## `ghostline/ui/dashboard.py` -/

/-- Embeds `_origin_from_url`, which returns `f"https://netloc"`-style origins via
`urlsplit`, embedded for plain absolute URLs of the shape
`scheme://host[/path]` (the only shape the claims exercise): a URL with a
non-empty scheme and network location maps to `scheme ++ "://" ++ netloc`,
anything else to `"about:blank"`. -/
def origin_from_url (url : String) : String :=
  match url.splitOn "://" with
  | [scheme, rest] =>
      let netloc := (rest.splitOn "/").headD ""
      if scheme ≠ "" ∧ netloc ≠ "" then scheme ++ "://" ++ netloc else "about:blank"
  | _ => "about:blank"

/-- The summary dict returned by `PrivacyDashboard.status_for_container`.
The `proxy` field holds the registered proxy's name; `device_class` is `none`
when no navigation was recorded (Python's `{}`).  The `performance_overlays`
field is not embedded (the performance monitor plays no part in any claim). -/
structure ContainerStatus where
  mode : String
  proxy : Option String
  ech : Bool
  https_only : Bool
  tor : Bool
  uniformity : String
  entropy_bits : Int
  container_origin : String
  device_class : Option DeviceAttrs
  extensions : List String
  permissions : List String
  policy_mode : String
deriving Repr, DecidableEq

/-- State of `PrivacyDashboard` — the fields the claims exercise.  The proxy
registry is embedded as the map from registered name to the proxy's name (the
only attribute the status dict reads).  `origin_hash` embeds Python's
process-seeded `abs(hash(origin))`: an arbitrary function of the origin
string, fixed for the lifetime of the process. -/
structure PrivacyDashboard where
  connection_mode : String := "standard"
  proxy_registry : List (String × String) := []
  errors : List String := []
  toggles : List (String × Bool) := [("ech", true), ("tor", false), ("https_only", true)]
  uniformity_manager : UniformityManager := {}
  entropy_budget : EntropyBudget := { limit_bits := 12 }
  device_randomizer : DeviceRandomizer
  container_ux : ContainerUX := {}
  permission_manager : PermissionManager := {}
  extension_platform : ExtensionPlatform := {}
  tor_controller : TorController := {}
  locale : String := "en-US"
  container_templates : List (String × String) := []
  container_origins : List (String × String) := []
  container_locales : List (String × String) := []
  last_device_class : List (String × DeviceAttrs) := []
  origin_hash : String → Nat

/-- Embeds `PrivacyDashboard.ensure_container`: return the existing badge or register
a new one, record the template, enable Tor when the template requires it, and
apply the container's uniformity preset.  `none` in the second component
embeds a raised `ValueError` (state mutated up to the raising call is kept,
exactly as in the source). -/
def PrivacyDashboard.ensure_container (d : PrivacyDashboard) (name : String)
    (template : String := "research") (locale : Option String := none) :
    PrivacyDashboard × Option ContainerBadge :=
  let step1 :=
    match d.container_ux.badge_for name with
    | some b => some (b, d.container_ux)
    | none => d.container_ux.register_container name template
  match step1 with
  | none => (d, none)
  | some (badge, ux') =>
      let d1 := { d with container_ux := ux'
                         container_templates := setA d.container_templates name template }
      let d2 :=
        if badge.policy.tor_required then
          let t1 := d1.tor_controller.enable none
          let t2 := (t1.isolate_stream name).2
          { d1 with tor_controller := t2 }
        else d1
      let profile_locale := locale.getD d.locale
      let d3 := { d2 with container_locales := setA d2.container_locales name profile_locale }
      match d3.uniformity_manager.apply_preset name badge.policy.uniformity_preset profile_locale with
      | none => (d3, none)
      | some (_, um') => ({ d3 with uniformity_manager := um' }, some badge)

/-- Embeds `PrivacyDashboard.status_for_container`: builds the summary dict; the
`setdefault` on the origins map is the one state mutation. -/
def PrivacyDashboard.status_for_container (d : PrivacyDashboard) (container : String) :
    PrivacyDashboard × ContainerStatus :=
  let origins' := setdefaultA d.container_origins container "about:blank"
  let origin := (lookupA origins' container).getD "about:blank"
  let status : ContainerStatus :=
    { mode := d.connection_mode
      proxy := lookupA d.proxy_registry container
      ech := (lookupA d.toggles "ech").getD false
      https_only := (lookupA d.toggles "https_only").getD false
      tor := (lookupA d.toggles "tor").getD false
      uniformity := (d.uniformity_manager.profile_for container).name
      entropy_bits := d.entropy_budget.total_bits
      container_origin := origin
      device_class := lookupA d.last_device_class container
      extensions := d.extension_platform.container_extensions container
      permissions := d.permission_manager.active_permissions origin
      policy_mode := d.permission_manager.policy_engine.compliance_mode }
  ({ d with container_origins := origins' }, status)

/-- Embeds `PrivacyDashboard.record_navigation`: record the navigation origin, reset
the (single, dashboard-wide) entropy budget, and randomize the device class
from the origin's hash bucket. -/
def PrivacyDashboard.record_navigation (d : PrivacyDashboard)
    (container url : String) : PrivacyDashboard :=
  let origin := origin_from_url url
  let bucket_seed : Int := ((d.origin_hash origin) % 10000 : Nat)
  let (device, rand') := d.device_randomizer.randomize bucket_seed
  { d with container_origins := setA d.container_origins container origin
           entropy_budget := d.entropy_budget.reset
           device_randomizer := rand'
           last_device_class := setA d.last_device_class container device }

/-! ## Operation sequences over `ExtensionManager` (for the implicit
allowlist/denylist disjointness invariant) -/

/-- One call against an `ExtensionManager`: the four operations that touch
container policies. -/
inductive MgrOp where
  | allow (container extension_id : String)
  | deny (container extension_id : String)
  | install (container : String) (package : ExtensionPackage)
  | clonePolicy (source target : String)

/-- Run one operation (a raised `ValueError` from `install` leaves the state
the call produced, as in the source). -/
def applyOp (m : ExtensionManager) : MgrOp → ExtensionManager
  | .allow c id => m.allow_extension c id
  | .deny c id => m.deny_extension c id
  | .install c p => (m.install c p).1
  | .clonePolicy s t => m.clone_policy s t

/-- Run a sequence of operations. -/
def applyOps (m : ExtensionManager) (ops : List MgrOp) : ExtensionManager :=
  ops.foldl applyOp m

/-- Every stored container policy has disjoint allowlist and denylist. -/
def PolicyListsDisjoint (m : ExtensionManager) : Prop :=
  ∀ c pol, lookupA m.policies c = some pol →
    ∀ id, id ∈ pol.allowlist → id ∉ pol.denylist

/-! ## Concrete states used by witnesses and counterexamples -/

/-- A concrete instance of the SHA-256-derived attribute generator. -/
def witnessGen : String → Int → DeviceAttrs :=
  fun _ _ => { gpu := "Ghostline GPU Class 1", memory_gb := 8, platform := "Linux" }

/-- A freshly constructed `DeviceRandomizer` with the concrete generator. -/
def randomizer0 : DeviceRandomizer := { gen := witnessGen }

/-- A freshly constructed `PrivacyDashboard` (concrete generator and origin
hash). -/
def dash0 : PrivacyDashboard :=
  { device_randomizer := randomizer0, origin_hash := fun _ => 0 }

/-- A dashboard on which 5 bits of entropy have been consumed. -/
def c1Dash : PrivacyDashboard :=
  { dash0 with entropy_budget := (dash0.entropy_budget.consume "canvas" 5).2 }

/-- A `duration="once"` prompt for a permission outside
`ONE_TIME_PERMISSIONS`. -/
def c5Prompt : PermissionPrompt :=
  { scope := "clipboard", duration := "once", data_access := "text", purpose := "paste" }

/-- A manager holding a one-time clipboard grant for `https://example.com`. -/
def c5Mgr : PermissionManager :=
  (PermissionManager.request_permission {} "https://example.com" "clipboard" c5Prompt).2

/-- A dashboard with the container `"work"` registered from the `balanced`
template. -/
def c6Dash : PrivacyDashboard := (dash0.ensure_container "work" "balanced" none).1

/-- The badge `c6Dash` stores for `"work"`. -/
def c6Badge : ContainerBadge :=
  { name := "work", color := "#4caf50"
    policy := { name := "balanced", uniformity_preset := "balanced", tor_required := false
                proxy_mode := "standard", notes := ["Fingerprint smoothing", "Proxy optional"] }
    isolation_badge := "isolated:balanced" }

/-- A signed, reproducible package whose manifest has an empty name. -/
def c7Pkg : ExtensionPackage :=
  { identifier := "ext"
    manifest := { name := "", version := "1.0", permissions := ["tabs"], reference_hash := some "h" }
    signature := "sig", build_hash := "h", provenance := "ci" }

/-- A well-formed signed, reproducible package. -/
def okPkg : ExtensionPackage :=
  { identifier := "good-ext"
    manifest := { name := "good", version := "1.0", permissions := ["tabs"], reference_hash := some "h" }
    signature := "sig", build_hash := "h", provenance := "ci" }

/-- A manager whose container `"work"` has `"good-ext"` in both its allowlist
and (by direct construction) its denylist — the configuration the denylist
precedence claim quantifies over. -/
def c4Mgr : ExtensionManager :=
  { policies := [("work",
      { allowlist := {"good-ext"}, denylist := {"good-ext"}, gated_permissions := [] })]
    active_extensions := [] }

/-- A uniformity manager with a profile applied for `"alpha"`. -/
def c9Mgr : UniformityManager :=
  match UniformityManager.apply_preset {} "alpha" "strict" "en-US" with
  | some (_, m) => m
  | none => {}

/-- The profile `c9Mgr` stores for `"alpha"`. -/
def c9Prof : UniformityProfile := c9Mgr.profile_for "alpha"

/-- A concrete entropy budget with prior usage on two APIs. -/
def c8Budget : EntropyBudget :=
  { limit_bits := 8, usage := [("canvas", 3), ("webgl", 4)]
    devtools_events := [], telemetry_events := [] }

/-! # Theorems -/

/-! ## Association-list lemmas -/

theorem lookupA_setA_self {α β : Type} [DecidableEq α]
    (l : List (α × β)) (k : α) (v : β) : lookupA (setA l k v) k = some v := by
  induction l with
  | nil => simp [setA, lookupA]
  | cons hd tl ih =>
      obtain ⟨k0, v0⟩ := hd
      by_cases h : k0 = k
      · simp [setA, h, lookupA]
      · simp [setA, h, lookupA, ih]

theorem lookupA_setA_ne {α β : Type} [DecidableEq α]
    (l : List (α × β)) (k k' : α) (v : β) (h : k ≠ k') :
    lookupA (setA l k v) k' = lookupA l k' := by
  induction l with
  | nil => simp [setA, lookupA, h]
  | cons hd tl ih =>
      obtain ⟨k0, v0⟩ := hd
      by_cases h0 : k0 = k
      · subst h0
        simp [setA, lookupA, h]
      · simp [setA, h0, lookupA, ih]

theorem lookupA_setA {α β : Type} [DecidableEq α]
    (l : List (α × β)) (k k' : α) (v : β) :
    lookupA (setA l k v) k' = if k = k' then some v else lookupA l k' := by
  by_cases h : k = k'
  · subst h
    simp [lookupA_setA_self]
  · simp [h, lookupA_setA_ne l k k' v h]

theorem lookupA_append {α β : Type} [DecidableEq α]
    (l1 l2 : List (α × β)) (k : α) :
    lookupA (l1 ++ l2) k =
      match lookupA l1 k with
      | some v => some v
      | none => lookupA l2 k := by
  induction l1 with
  | nil => simp [lookupA]
  | cons hd tl ih =>
      obtain ⟨k0, v0⟩ := hd
      by_cases h : k0 = k
      · simp [lookupA, h]
      · simp [lookupA, h, ih]

theorem lookupA_setdefaultA {α β : Type} [DecidableEq α]
    (l : List (α × β)) (k k' : α) (v : β) :
    lookupA (setdefaultA l k v) k' =
      if k = k' then some ((lookupA l k).getD v) else lookupA l k' := by
  unfold setdefaultA
  by_cases hp : (lookupA l k).isSome
  · obtain ⟨w, hw⟩ := Option.isSome_iff_exists.mp hp
    by_cases h : k = k'
    · subst h
      simp [hp, hw]
    · simp [hp, h]
  · have hnone : lookupA l k = none := Option.not_isSome_iff_eq_none.mp hp
    by_cases h : k = k'
    · subst h
      simp [hp, lookupA_append, hnone, lookupA]
    · simp [hp, lookupA_append, h, lookupA]
      cases hlk : lookupA l k' with
      | some w => simp
      | none => simp [lookupA, h]

theorem sumValues_setA {α : Type} [DecidableEq α]
    (l : List (α × Int)) (k : α) (v : Int) :
    sumValues (setA l k v) = sumValues l - ((lookupA l k).getD 0) + v := by
  induction l with
  | nil => simp [setA, sumValues, lookupA]
  | cons hd tl ih =>
      obtain ⟨k0, v0⟩ := hd
      by_cases h : k0 = k
      · simp [setA, h, sumValues, lookupA]
        ring
      · simp [setA, h, sumValues, lookupA, ih]
        ring

/-! ## Claim C8 — `EntropyBudget.consume` -/

/-- C8: `consume(api, bits)` adds `bits` to the per-API tally; it returns
`false` iff the new grand total across all APIs exceeds the fixed limit, and
exactly in that case a budget-exceeded event is appended to both the devtools
log and the telemetry log; the consumed bits are never rolled back (the new
grand total is the old one plus `bits` in every case), and a subsequent
`reset()` makes `total_bits()` equal 0. -/
theorem entropy_consume_spec (b : EntropyBudget) (api : String) (bits : Int) :
    lookupA (b.consume api bits).2.usage api =
      some ((lookupA b.usage api).getD 0 + bits) ∧
    ((b.consume api bits).1 = false ↔ (b.consume api bits).2.total_bits > b.limit_bits) ∧
    (b.consume api bits).2.total_bits = b.total_bits + bits ∧
    (b.consume api bits).2.devtools_events =
      b.devtools_events ++ [consumeEvent api bits (b.total_bits + bits)] ++
        (if b.total_bits + bits > b.limit_bits then
          [exceededEvent api (b.total_bits + bits) b.limit_bits] else []) ∧
    (b.consume api bits).2.telemetry_events =
      b.telemetry_events ++
        (if b.total_bits + bits > b.limit_bits then
          [exceededEvent api (b.total_bits + bits) b.limit_bits] else []) ∧
    (b.consume api bits).2.reset.total_bits = 0 := by
  have htot : sumValues (setA b.usage api ((lookupA b.usage api).getD 0 + bits))
      = sumValues b.usage + bits := by
    rw [sumValues_setA]
    ring
  by_cases h : sumValues b.usage + bits > b.limit_bits
  · simp [EntropyBudget.consume, EntropyBudget.total_bits, EntropyBudget.reset,
      sumValues, htot, h, lookupA_setA_self]
  · simp [EntropyBudget.consume, EntropyBudget.total_bits, EntropyBudget.reset,
      sumValues, htot, h, lookupA_setA_self]

/-! ## Claim C2 — `DeviceRandomizer.randomize` -/

/-- C2: `randomize` is deterministic and bucket-stable: a second call with the
same window id returns the same attributes, and a call with any id in the same
bucket (equal floor quotient by `stability_window`) returns the same
attributes. -/
theorem randomize_bucket_stable (r : DeviceRandomizer) (i j : Int)
    (h : r.bucket i = r.bucket j) :
    ((r.randomize i).2.randomize i).1 = (r.randomize i).1 ∧
    ((r.randomize i).2.randomize j).1 = (r.randomize i).1 := by
  have key : ∀ k : Int, r.bucket i = r.bucket k →
      ((r.randomize i).2.randomize k).1 = (r.randomize i).1 := by
    intro k hk
    cases hcase : lookupA r.randomized (r.bucket i) with
    | some v =>
        have h1 : r.randomize i = (v, r) := by
          simp [DeviceRandomizer.randomize, hcase]
        have h2 : r.randomize k = (v, r) := by
          simp [DeviceRandomizer.randomize, ← hk, hcase]
        rw [h1, h2]
    | none =>
        have h1 : r.randomize i = (r.gen r.seed (r.bucket i), { r with randomized := setA r.randomized (r.bucket i) (r.gen r.seed (r.bucket i)) }) := by
          simp [DeviceRandomizer.randomize, hcase]
        have hb : ({ r with randomized := setA r.randomized (r.bucket i) (r.gen r.seed (r.bucket i)) } : DeviceRandomizer).bucket k = r.bucket i := by
          simp [DeviceRandomizer.bucket] at hk ⊢
          exact hk.symm
        rw [h1]
        simp [DeviceRandomizer.randomize, hb, lookupA_setA_self]
  exact ⟨key i rfl, key j h⟩

/-- Witness for C2 at a concrete randomizer: window ids 0 and 2 share bucket 0
with the default stability window 3. -/
theorem randomize_bucket_stable_witness :
    ((randomizer0.randomize 0).2.randomize 2).1 = (randomizer0.randomize 0).1 :=
  (randomize_bucket_stable randomizer0 0 2 (by decide)).2

/-! ## Claim C3 — `ExtensionStore.publish` stage order -/

/-- C3: `publish` runs signature check, static analysis, permission review and
reproducible-build verification in that fixed order, short-circuiting on the
first failure: an unsigned package raises `unsigned-extension` regardless of
anything else, and a correctly signed package whose build hash equals its
manifest reference hash but whose manifest has an empty name or version raises
`static-analysis-blocked` (not `non-reproducible-build`). -/
theorem publish_stage_order (s : ExtensionStore) (p : ExtensionPackage) :
    (p.signed = false → (s.publish p).2.2 = some "unsigned-extension") ∧
    (p.signed = true → p.manifest.reference_hash = some p.build_hash →
      (p.manifest.name = "" ∨ p.manifest.version = "") →
      (s.publish p).2.2 = some "static-analysis-blocked") := by
  constructor
  · intro hsig
    simp [ExtensionStore.publish, hsig]
  · intro hsig _ hmeta
    have hcrit : (StaticAnalyzer.analyze p.manifest).any
        (fun f => f.severity = "critical") = true := by
      simp [StaticAnalyzer.analyze, hmeta, List.any_append]
    simp [ExtensionStore.publish, hsig, hcrit]

/-- Witness for C3: a signed, reproducible package with an empty manifest name
is blocked by static analysis. -/
theorem publish_stage_order_witness :
    (ExtensionStore.publish {} c7Pkg).2.2 = some "static-analysis-blocked" :=
  (publish_stage_order {} c7Pkg).2 (by decide) (by decide) (Or.inl (by decide))

/-! ## Claim C4 — denylist precedence in `ExtensionManager.install` -/

/-- C4: `install` raises `extension-denied` whenever the package identifier is
in the container's denylist — even when it is also in a non-empty allowlist —
and raises `extension-not-allowlisted` exactly when the identifier is not
denylisted, the allowlist is non-empty and the identifier is not in it. -/
theorem install_denylist_precedence (m : ExtensionManager) (c : String)
    (p : ExtensionPackage) :
    (p.identifier ∈ (m.policyFor c).denylist →
      (m.install c p).2 = some "extension-denied") ∧
    ((m.install c p).2 = some "extension-not-allowlisted" ↔
      p.identifier ∉ (m.policyFor c).denylist ∧ (m.policyFor c).allowlist ≠ ∅ ∧
        p.identifier ∉ (m.policyFor c).allowlist) := by
  constructor
  · intro hdeny
    simp [ExtensionManager.install, hdeny]
  · by_cases hdeny : p.identifier ∈ (m.policyFor c).denylist
    · simp [ExtensionManager.install, hdeny]
    · by_cases hallow : (m.policyFor c).allowlist ≠ ∅ ∧ p.identifier ∉ (m.policyFor c).allowlist
      · simp [ExtensionManager.install, hdeny, hallow]
      · simp [ExtensionManager.install, hdeny, hallow]

/-- Witness for C4 at a concrete manager whose container `"work"` has
`"good-ext"` in both a non-empty allowlist and the denylist: `install`
raises `extension-denied`. -/
theorem install_denylist_precedence_witness :
    (c4Mgr.install "work" okPkg).2 = some "extension-denied" :=
  (install_denylist_precedence c4Mgr "work" okPkg).1 (by decide)

/-! ## Claim C7 — `publish` is not atomic on rejection -/

/-- C7 counterexample: publishing a signed package with an empty manifest name
(and matching build/reference hashes) raises `static-analysis-blocked`, yet
the store's recorded analysis findings change from nothing to the package's
findings — partial state IS retained on rejection. -/
theorem publish_rejection_retains_findings :
    (ExtensionStore.publish {} c7Pkg).2.2 = some "static-analysis-blocked" ∧
    lookupA (ExtensionStore.analysis_findings {}) "ext" = none ∧
    lookupA (ExtensionStore.publish {} c7Pkg).1.analysis_findings "ext" ≠ none := by
  decide

/-- C7 amended: on any rejection the `extensions` registry is left unchanged
(the package is not published), but earlier-stage state is kept: whenever the
signature check passed, the store records the package's static-analysis
findings before short-circuiting. -/
theorem publish_rejection_state (s : ExtensionStore) (p : ExtensionPackage)
    (e : String) (h : (s.publish p).2.2 = some e) :
    (s.publish p).1.extensions = s.extensions ∧
    (p.signed = true →
      lookupA (s.publish p).1.analysis_findings p.identifier =
        some (StaticAnalyzer.analyze p.manifest)) := by
  simp only [ExtensionStore.publish] at h ⊢
  split_ifs at h ⊢ with h1 h2 h3
  · exact ⟨rfl, fun _ =>
      lookupA_setA_self s.analysis_findings p.identifier (StaticAnalyzer.analyze p.manifest)⟩
  · exact ⟨rfl, fun _ =>
      lookupA_setA_self s.analysis_findings p.identifier (StaticAnalyzer.analyze p.manifest)⟩
  · exact ⟨rfl, fun _ => False.elim (h3 rfl)⟩
  · exact ⟨rfl, fun a => False.elim (h1 a)⟩

/-- Witness for C7's amended statement at the concrete rejected package. -/
theorem publish_rejection_state_witness :
    (ExtensionStore.publish {} c7Pkg).1.extensions = ExtensionStore.extensions {} :=
  (publish_rejection_state {} c7Pkg "static-analysis-blocked" (by decide)).1

/-! ## Claim C5 — `PermissionManager.close_tab` -/

theorem lookupA_closeMap (perms : List (String × PermissionGrant)) (p : String) :
    lookupA (perms.map (fun pg =>
      if pg.2.one_time ∧ pg.1 ∈ ONE_TIME_PERMISSIONS then
        (pg.1, { pg.2 with active := false }) else pg)) p
    = (lookupA perms p).map (fun g =>
        if g.one_time ∧ p ∈ ONE_TIME_PERMISSIONS then { g with active := false } else g) := by
  induction perms with
  | nil => simp [lookupA]
  | cons hd tl ih =>
      obtain ⟨q, g⟩ := hd
      simp only [List.map_cons]
      by_cases hc : g.one_time ∧ q ∈ ONE_TIME_PERMISSIONS
      · rw [if_pos hc]
        by_cases hq : q = p
        · subst hq
          simp [lookupA, hc]
        · simp [lookupA, hq, ih]
      · rw [if_neg hc]
        by_cases hq : q = p
        · subst hq
          simp [lookupA, hc]
        · simp [lookupA, hq, ih]

/-- C5 counterexample: a `duration="once"` clipboard grant is stored with
`one_time=true` and `active=true`, yet `close_tab` leaves it active (the code
additionally requires the permission to be in `ONE_TIME_PERMISSIONS`), so
`close_tab` does NOT deactivate every grant that is both active and
one_time. -/
theorem close_tab_counterexample :
    (c5Mgr.grantFor "https://example.com" "clipboard").map
      (fun g => (g.one_time, g.active)) = some (true, true) ∧
    ((c5Mgr.close_tab "https://example.com").grantFor "https://example.com"
      "clipboard").map (fun g => g.active) = some true := by
  decide

/-- C5 amended: `close_tab(origin)` deactivates exactly those grants stored
under `origin` whose `one_time` flag is set AND whose permission is in
`ONE_TIME_PERMISSIONS` (logging reason "tab-closed" for each such grant,
whether or not it was still active); every other grant — in particular every
grant with `one_time` false — keeps its `active` flag unchanged. -/
theorem close_tab_spec (m : PermissionManager) (origin p : String) :
    (m.close_tab origin).grantFor origin p =
      (m.grantFor origin p).map (fun g =>
        if g.one_time ∧ p ∈ ONE_TIME_PERMISSIONS then { g with active := false } else g) ∧
    (m.close_tab origin).exposure_log = m.exposure_log ++
      ((lookupA m.grants origin).getD []).filterMap (fun pg =>
        if pg.2.one_time ∧ pg.1 ∈ ONE_TIME_PERMISSIONS then
          some (ExposureEntry.revoked origin pg.1 "tab-closed") else none) := by
  cases hg : lookupA m.grants origin with
  | none =>
      constructor
      · simp [PermissionManager.close_tab, hg, PermissionManager.grantFor, lookupA]
      · simp [PermissionManager.close_tab, hg]
  | some perms =>
      constructor
      · simp [PermissionManager.close_tab, hg, PermissionManager.grantFor,
          lookupA_setA_self, lookupA_closeMap]
      · simp [PermissionManager.close_tab, hg]

/-! ## Claim C6 — idempotent container registration -/

/-- C6: when a container name already has a badge, `ensure_container` returns
that badge unchanged and re-registers nothing: the whole `ContainerUX` state —
badge map and palette cursor — is untouched, so no new palette color is
consumed and the stored badge is not replaced. -/
theorem ensure_container_idempotent (d : PrivacyDashboard) (name template : String)
    (locale : Option String) (b : ContainerBadge)
    (h : d.container_ux.badge_for name = some b) :
    (d.ensure_container name template locale).1.container_ux = d.container_ux ∧
    ∀ r, (d.ensure_container name template locale).2 = some r → r = b := by
  simp only [PrivacyDashboard.ensure_container, h]
  split
  · split
    · simp
    · simp
  · split
    · simp
    · simp

/-- Witness for C6: re-registering `"work"` (with a different template) on a
dashboard that already has its badge leaves the container UX unchanged and
returns the stored badge. -/
theorem ensure_container_idempotent_witness :
    (c6Dash.ensure_container "work" "research" none).1.container_ux = c6Dash.container_ux ∧
    ∀ r, (c6Dash.ensure_container "work" "research" none).2 = some r → r = c6Badge :=
  ensure_container_idempotent c6Dash "work" "research" none c6Badge (by decide)

/-! ## Claim C9 — uniformity profile isolation -/

/-- C9 counterexample: with two containers neither of which ever had a preset
applied, a site override set for `"alpha"` changes the fonts reported for
`"beta"` — `profile_for` falls back to the shared `compat` preset, so the
override leaks across containers. -/
theorem set_site_override_leak :
    UniformityManager.fonts_for {} "beta" "default" (some "example.com") =
      ["Inter", "Noto Sans", "DejaVu Sans"] ∧
    (UniformityManager.set_site_override {} "alpha" "example.com"
      ["Ghost Mono"]).fonts_for "beta" "default" (some "example.com") =
      ["Ghost Mono"] := by
  decide

/-- C9 amended: isolation holds for containers that own a profile: if a preset
has been applied to container `a` (so `a` has an entry in the profile map),
then `set_site_override` on `a` mutates only `a`'s own deep-copied profile and
never changes the fonts reported for any other container `b`; the leak exists
only for containers without a profile, whose `profile_for` falls back to the
shared `compat` preset. -/
theorem set_site_override_isolated (m : UniformityManager) (a b site locale : String)
    (fonts : List String) (site' : Option String) (p : UniformityProfile)
    (hp : lookupA m.container_profiles a = some p) (hab : a ≠ b) :
    (m.set_site_override a site fonts).fonts_for b locale site' =
      m.fonts_for b locale site' := by
  simp only [UniformityManager.set_site_override, hp, UniformityManager.fonts_for,
    UniformityManager.profile_for]
  rw [lookupA_setA_ne _ _ _ _ hab]

/-- Witness for C9's amended statement: after applying a preset to `"alpha"`,
an override for `"alpha"` leaves `"beta"`'s fonts unchanged. -/
theorem set_site_override_isolated_witness :
    (c9Mgr.set_site_override "alpha" "example.com" ["Ghost Mono"]).fonts_for
      "beta" "default" (some "example.com") =
      c9Mgr.fonts_for "beta" "default" (some "example.com") :=
  set_site_override_isolated c9Mgr "alpha" "beta" "example.com" "default"
    ["Ghost Mono"] (some "example.com") c9Prof (by decide) (by decide)

/-! ## Claim C1 — the entropy budget is dashboard-global, not per-container -/

/-- C1 counterexample: with 5 bits consumed on the dashboard's (single)
entropy budget, `status_for_container("beta")` reports 5 bits; after
`record_navigation("alpha", url)` — a different container — it reports 0.
Bits consumed on behalf of any context appear in every container's
`entropy_bits`, and `record_navigation` on one container resets what every
other container reports. -/
theorem entropy_budget_not_per_container :
    ((c1Dash.status_for_container "beta").2.entropy_bits = 5) ∧
    (((c1Dash.record_navigation "alpha"
        "https://example.com").status_for_container "beta").2.entropy_bits = 0) := by
  decide

/-- C1 amended: the entropy budget is a single dashboard-wide ledger:
`record_navigation` on any container resets it, so afterwards
`status_for_container` reports 0 entropy bits for every container, and at any
time every two containers report the identical `entropy_bits` value. -/
theorem record_navigation_resets_globally (d : PrivacyDashboard)
    (a b : String) (url : String) :
    ((d.record_navigation a url).status_for_container b).2.entropy_bits = 0 ∧
    (d.status_for_container a).2.entropy_bits =
      (d.status_for_container b).2.entropy_bits := by
  constructor
  · simp [PrivacyDashboard.record_navigation, PrivacyDashboard.status_for_container,
      EntropyBudget.reset, EntropyBudget.total_bits, sumValues]
  · simp [PrivacyDashboard.status_for_container]

/-! ## Claim C10 — allowlist/denylist disjointness invariant -/

theorem policyFor_disjoint (m : ExtensionManager) (hm : PolicyListsDisjoint m)
    (c : String) :
    ∀ id, id ∈ (m.policyFor c).allowlist → id ∉ (m.policyFor c).denylist := by
  unfold ExtensionManager.policyFor
  cases hl : lookupA m.policies c with
  | some pol => simpa using hm c pol hl
  | none => simp

theorem applyOp_preserves_disjoint (m : ExtensionManager) (op : MgrOp)
    (hm : PolicyListsDisjoint m) : PolicyListsDisjoint (applyOp m op) := by
  cases op with
  | allow c id =>
      intro c' pol' h' x hx
      simp only [applyOp, ExtensionManager.allow_extension, lookupA_setA] at h'
      by_cases hc : c = c'
      · rw [if_pos hc] at h'
        obtain rfl : _ = pol' := Option.some.inj h'
        rcases Finset.mem_insert.mp hx with rfl | hxa
        · exact Finset.not_mem_erase _ _
        · intro hxd
          exact policyFor_disjoint m hm c x hxa (Finset.mem_of_mem_erase hxd)
      · rw [if_neg hc] at h'
        exact hm c' pol' h' x hx
  | deny c id =>
      intro c' pol' h' x hx
      simp only [applyOp, ExtensionManager.deny_extension, lookupA_setA] at h'
      by_cases hc : c = c'
      · rw [if_pos hc] at h'
        obtain rfl : _ = pol' := Option.some.inj h'
        intro hxd
        rcases Finset.mem_insert.mp hxd with rfl | hxd'
        · exact (Finset.mem_erase.mp hx).1 rfl
        · exact policyFor_disjoint m hm c x (Finset.mem_of_mem_erase hx) hxd'
      · rw [if_neg hc] at h'
        exact hm c' pol' h' x hx
  | install c p =>
      intro c' pol' h' x hx
      simp only [applyOp, ExtensionManager.install] at h'
      split_ifs at h' with h1 h2
      · rw [lookupA_setdefaultA] at h'
        by_cases hc : c = c'
        · rw [if_pos hc] at h'
          obtain rfl : _ = pol' := Option.some.inj h'
          exact policyFor_disjoint m hm c x hx
        · rw [if_neg hc] at h'
          exact hm c' pol' h' x hx
      · rw [lookupA_setdefaultA] at h'
        by_cases hc : c = c'
        · rw [if_pos hc] at h'
          obtain rfl : _ = pol' := Option.some.inj h'
          exact policyFor_disjoint m hm c x hx
        · rw [if_neg hc] at h'
          exact hm c' pol' h' x hx
      · rw [lookupA_setA] at h'
        by_cases hc : c = c'
        · rw [if_pos hc] at h'
          obtain rfl : _ = pol' := Option.some.inj h'
          exact policyFor_disjoint m hm c x hx
        · rw [if_neg hc] at h'
          exact hm c' pol' h' x hx
      · rw [lookupA_setA] at h'
        by_cases hc : c = c'
        · rw [if_pos hc] at h'
          obtain rfl : _ = pol' := Option.some.inj h'
          exact policyFor_disjoint m hm c x hx
        · rw [if_neg hc] at h'
          exact hm c' pol' h' x hx
  | clonePolicy s t =>
      intro c' pol' h' x hx
      simp only [applyOp, ExtensionManager.clone_policy] at h'
      cases hs : lookupA m.policies s with
      | none =>
          rw [hs] at h'
          simp only [lookupA_setA] at h'
          by_cases hc : t = c'
          · rw [if_pos hc] at h'
            obtain rfl : _ = pol' := Option.some.inj h'
            simp at hx
          · rw [if_neg hc] at h'
            exact hm c' pol' h' x hx
      | some pol =>
          rw [hs] at h'
          simp only [lookupA_setA] at h'
          by_cases hc : t = c'
          · rw [if_pos hc] at h'
            obtain rfl : _ = pol' := Option.some.inj h'
            exact hm s pol hs x hx
          · rw [if_neg hc] at h'
            exact hm c' pol' h' x hx

/-- C10: starting from the empty `ExtensionManager`, after any sequence of
`allow_extension`, `deny_extension`, `install` and `clone_policy` calls, no
extension id is in both the allowlist and the denylist of any container's
policy. -/
theorem extension_lists_disjoint (ops : List MgrOp) :
    PolicyListsDisjoint (applyOps {} ops) := by
  suffices h : ∀ m, PolicyListsDisjoint m → PolicyListsDisjoint (applyOps m ops) by
    refine h {} ?_
    intro c pol hpol
    simp [lookupA] at hpol
  induction ops with
  | nil => intro m hm; exact hm
  | cons op rest ih =>
      intro m hm
      exact ih (applyOp m op) (applyOp_preserves_disjoint m op hm)

/-- Witness for C10 at a concrete operation sequence: after allowing then
denying `"good-ext"` for `"work"` and cloning the policy to `"play"`, the id
allowed for a different container is not denylisted there. -/
theorem extension_lists_disjoint_witness :
    "ext2" ∉ ((applyOps {} [MgrOp.allow "work" "good-ext", MgrOp.deny "work" "good-ext", MgrOp.clonePolicy "work" "play", MgrOp.allow "play" "ext2"]).policyFor "play").denylist := by
  have hd := extension_lists_disjoint [MgrOp.allow "work" "good-ext", MgrOp.deny "work" "good-ext", MgrOp.clonePolicy "work" "play", MgrOp.allow "play" "ext2"]
  have hmem : "ext2" ∈ ((applyOps {} [MgrOp.allow "work" "good-ext", MgrOp.deny "work" "good-ext", MgrOp.clonePolicy "work" "play", MgrOp.allow "play" "ext2"]).policyFor "play").allowlist := by
    decide
  unfold ExtensionManager.policyFor at hmem ⊢
  cases hl : lookupA (applyOps {} [MgrOp.allow "work" "good-ext", MgrOp.deny "work" "good-ext", MgrOp.clonePolicy "work" "play", MgrOp.allow "play" "ext2"]).policies "play" with
  | none => simp [hl]
  | some pol =>
      rw [hl] at hmem
      simpa [hl] using hd "play" pol hl "ext2" (by simpa using hmem)

end Ghostline
